import Mathlib

/- Shallow embedding of the metadata / history-tracking core of the repository:
   the dense tensor metadata (aten/src/ATen/core/TensorImpl.cpp), the sparse COO
   specialization (aten/src/ATen/SparseTensorImpl.h), the quantized variant
   (aten/src/ATen/quantized/QTensorImpl.h) and the autograd wrapper
   (torch/csrc/autograd/variable.cpp).  Machine integers (int64_t) are modelled
   as Int; dimension counts and version numbers as Nat; fallible code (AT_CHECK /
   AT_ASSERT / thrown exceptions) as Except String. -/

/- ===================== TensorImpl ===================== -/

inductive TensorTypeId where
  | UndefinedTensorId
  | SparseCPUTensorId
  | SparseCUDATensorId
  | CPUTensorId
  | CUDATensorId
deriving DecidableEq, Repr

inductive ScalarType where
  | Undefined
  | Float
  | Double
  | Long
  | Byte
deriving DecidableEq, Repr

/-- A Storage handle: reference-counted raw buffer plus element type.  The core
only stores/shares/releases it; we model it by its element type and element
count.  A `TensorImpl.storage_` of `none` is a null storage. -/
structure Storage where
  dtype : ScalarType
  numel : Nat
deriving DecidableEq, Repr

structure TensorImpl where
  storage_ : Option Storage
  storage_offset_ : Int
  sizes_ : List Int
  strides_ : List Int
  is_contiguous_ : Bool
  numel_ : Int
  type_id_ : TensorTypeId
  scalar_type_ : ScalarType
  is_wrapped_number_ : Bool
  is_variable_ : Bool
deriving DecidableEq, Repr

/-- TensorImpl(Storage&&, TensorTypeId, ScalarType, bool is_variable)
(TensorImpl.cpp lines 32-41): member-initializer list with
`sizes_{0}, strides_{1}, is_contiguous_(true), numel_(0)`. -/
def TensorImpl.ofStorage (storage : Option Storage) (type_id : TensorTypeId)
    (scalar_type : ScalarType) (is_variable : Bool) : TensorImpl :=
  { storage_ := storage
    storage_offset_ := 0
    sizes_ := [0]
    strides_ := [1]
    is_contiguous_ := true
    numel_ := 0
    type_id_ := type_id
    scalar_type_ := scalar_type
    is_wrapped_number_ := false
    is_variable_ := is_variable }

/-- TensorImpl(TensorTypeId, ScalarType, Allocator*, bool is_variable)
(TensorImpl.cpp lines 20-27): delegates to the storage constructor with a null
storage, then allocates a 0-element Storage unless the tensor is undefined or
sparse.  The allocator is irrelevant to the metadata and is dropped. -/
def TensorImpl.ofTypeId (type_id : TensorTypeId) (scalar_type : ScalarType)
    (is_variable : Bool) : TensorImpl :=
  let t := TensorImpl.ofStorage none type_id scalar_type is_variable
  if type_id ≠ TensorTypeId.UndefinedTensorId ∧ scalar_type ≠ ScalarType.Undefined
      ∧ type_id ≠ TensorTypeId.SparseCPUTensorId
      ∧ type_id ≠ TensorTypeId.SparseCUDATensorId then
    { t with storage_ := some { dtype := scalar_type, numel := 0 } }
  else t

/-- The full-field constructor (TensorImpl.cpp lines 43-62). -/
def TensorImpl.ofFields (storage : Option Storage) (storage_offset : Int)
    (sizes strides : List Int) (is_contiguous : Bool) (numel : Int)
    (type_id : TensorTypeId) (scalar_type : ScalarType)
    (is_wrapped_number is_variable : Bool) : TensorImpl :=
  { storage_ := storage
    storage_offset_ := storage_offset
    sizes_ := sizes
    strides_ := strides
    is_contiguous_ := is_contiguous
    numel_ := numel
    type_id_ := type_id
    scalar_type_ := scalar_type
    is_wrapped_number_ := is_wrapped_number
    is_variable_ := is_variable }

/-- TensorImpl::dim (TensorImpl.cpp lines 96-98): `sizes_.size()`. -/
def TensorImpl.dim (t : TensorImpl) : Nat := t.sizes_.length

/-- Modelled from the spec: `TensorImpl::is_empty` (declared in TensorImpl.h,
which is not among the source files) — "an empty (0-element) tensor". -/
def TensorImpl.is_empty (t : TensorImpl) : Bool := t.numel_ == 0

/-- The loop of TensorImpl::compute_contiguous (TensorImpl.cpp lines 76-86) on
the (size, stride) pairs listed from the LAST dimension to the first, with the
expected-stride accumulator `z` (initially 1): a dimension of extent 1 is
skipped; otherwise the stride must equal `z`, which is then multiplied by the
extent; the first mismatch stops the scan with `false`. -/
def contiguousLoop : List (Int × Int) → Int → Bool
  | [], _ => true
  | (sz, st) :: rest, z =>
    if sz ≠ 1 then
      if st = z then contiguousLoop rest (z * sz) else false
    else contiguousLoop rest z

/-- TensorImpl::compute_contiguous (TensorImpl.cpp lines 72-88). -/
def TensorImpl.compute_contiguous (t : TensorImpl) : Bool :=
  if t.is_empty then true
  else contiguousLoop ((t.sizes_.zip t.strides_).reverse) 1

/-- The canonical row-major strides for a shape: each dimension's stride is the
product of the extents after it.  A tensor built with these strides is
"contiguous by construction". -/
def contigStrides : List Int → List Int
  | [] => []
  | _ :: rest => rest.prod :: contigStrides rest

/-- A contiguous-by-construction dense tensor over a given shape. -/
def contigTensor (sizes : List Int) : TensorImpl :=
  TensorImpl.ofFields none 0 sizes (contigStrides sizes) true sizes.prod
    TensorTypeId.CPUTensorId ScalarType.Float false false

/-- The specification predicate for contiguity: every dimension of extent ≠ 1
has stride equal to the product of the extents of all later dimensions. -/
def stridesMatchSuffix (sizes strides : List Int) : Prop :=
  ∀ i, i < sizes.length → sizes.getD i 1 ≠ 1 →
    strides.getD i 0 = (sizes.drop (i + 1)).prod

instance stridesMatchSuffixDecidable (sizes strides : List Int) :
    Decidable (stridesMatchSuffix sizes strides) := by
  unfold stridesMatchSuffix
  exact Nat.decidableBallLT _ _

/-- Product of the first components — the extents — of a (size, stride) list. -/
def prodFst (l : List (Int × Int)) : Int := (l.map Prod.fst).prod

theorem contiguousLoop_nil (z : Int) : contiguousLoop [] z = true := rfl

theorem contiguousLoop_cons (sz st : Int) (rest : List (Int × Int)) (z : Int) :
    contiguousLoop ((sz, st) :: rest) z =
      if sz ≠ 1 then
        if st = z then contiguousLoop rest (z * sz) else false
      else contiguousLoop rest z := rfl

theorem contiguousLoop_append (xs ys : List (Int × Int)) (z : Int) :
    contiguousLoop (xs ++ ys) z =
      if contiguousLoop xs z then contiguousLoop ys (z * prodFst xs) else false := by
  induction xs generalizing z with
  | nil => simp [contiguousLoop, prodFst]
  | cons p xs ih =>
    obtain ⟨sz, st⟩ := p
    rw [List.cons_append, contiguousLoop_cons, contiguousLoop_cons]
    by_cases hsz : sz = 1
    · subst hsz
      rw [if_neg (show ¬((1 : Int) ≠ 1) from fun h => h rfl),
        if_neg (show ¬((1 : Int) ≠ 1) from fun h => h rfl), ih]
      have hp : prodFst ((1, st) :: xs) = prodFst xs := by simp [prodFst]
      rw [hp]
    · rw [if_pos hsz, if_pos hsz]
      by_cases hst : st = z
      · rw [if_pos hst, if_pos hst, ih]
        have hp : z * prodFst ((sz, st) :: xs) = z * sz * prodFst xs := by
          simp [prodFst]; ring
        rw [hp]
      · rw [if_neg hst, if_neg hst]
        simp

theorem stridesMatchSuffix_cons (s st : Int) (ss sts : List Int) :
    stridesMatchSuffix (s :: ss) (st :: sts) ↔
      ((s ≠ 1 → st = ss.prod) ∧ stridesMatchSuffix ss sts) := by
  constructor
  · intro h
    refine ⟨fun hs => ?_, fun i hi hne => ?_⟩
    · have := h 0 (Nat.succ_pos _) (by simpa using hs)
      simpa using this
    · have := h (i + 1) (by simpa using Nat.succ_lt_succ hi) (by simpa using hne)
      simpa using this
  · rintro ⟨h1, h2⟩ i hi hne
    cases i with
    | zero => simpa using h1 (by simpa using hne)
    | succ j =>
      have := h2 j (by simpa using Nat.lt_of_succ_lt_succ hi) (by simpa using hne)
      simpa using this

theorem contiguousLoop_iff (sizes strides : List Int)
    (hlen : strides.length = sizes.length) :
    (contiguousLoop ((sizes.zip strides).reverse) 1 = true ↔
      stridesMatchSuffix sizes strides) := by
  induction sizes generalizing strides with
  | nil =>
    simp only [List.length_nil, List.length_eq_zero] at hlen
    subst hlen
    simp [contiguousLoop, stridesMatchSuffix]
  | cons s ss ih =>
    cases strides with
    | nil => simp at hlen
    | cons st sts =>
      have hlen' : sts.length = ss.length := by simpa using hlen
      have hfst : prodFst ((ss.zip sts).reverse) = ss.prod := by
        unfold prodFst
        rw [List.map_reverse, List.prod_reverse, List.map_fst_zip]
        omega
      rw [List.zip_cons_cons, List.reverse_cons, contiguousLoop_append,
        stridesMatchSuffix_cons, ← ih sts hlen', hfst, one_mul]
      by_cases hrest : contiguousLoop ((ss.zip sts).reverse) 1 = true
      · rw [if_pos hrest, contiguousLoop_cons]
        simp only [contiguousLoop_nil, hrest, and_true]
        by_cases hs : s = 1
        · simp [hs]
        · by_cases hst : st = ss.prod <;> simp [hs, hst]
      · rw [if_neg hrest]
        constructor
        · intro h; simp at h
        · rintro ⟨-, hc⟩; exact absurd hc hrest

theorem contigStrides_length (sizes : List Int) :
    (contigStrides sizes).length = sizes.length := by
  induction sizes with
  | nil => rfl
  | cons s ss ih => simp [contigStrides, ih]

theorem contigStrides_matches (sizes : List Int) :
    stridesMatchSuffix sizes (contigStrides sizes) := by
  induction sizes with
  | nil => intro i hi; simp at hi
  | cons s ss ih =>
    rw [show contigStrides (s :: ss) = ss.prod :: contigStrides ss from rfl,
      stridesMatchSuffix_cons]
    exact ⟨fun _ => rfl, ih⟩

/-- C7: `compute_contiguous()` returns true immediately when `numel` is 0;
otherwise it scans dimensions from last to first skipping extent-1 dimensions
against an expected stride product, returning true exactly when every non-unit
dimension's stride equals the product of the extents after it; in particular it
returns true for every contiguous-by-construction tensor and false for the
transposed pair of non-unit dimensions in the 2x3 transpose example. -/
theorem compute_contiguous_spec :
    (∀ t : TensorImpl, t.numel_ = 0 → t.compute_contiguous = true) ∧
    (∀ t : TensorImpl, t.numel_ ≠ 0 → t.strides_.length = t.sizes_.length →
      (t.compute_contiguous = true ↔ stridesMatchSuffix t.sizes_ t.strides_)) ∧
    (∀ sizes : List Int, (contigTensor sizes).compute_contiguous = true) ∧
    ((TensorImpl.ofFields none 0 [2, 3] [1, 2] false 6
        TensorTypeId.CPUTensorId ScalarType.Float false false).compute_contiguous
      = false) := by
  refine ⟨?_, ?_, ?_, by decide⟩
  · intro t ht
    simp [TensorImpl.compute_contiguous, TensorImpl.is_empty, ht]
  · intro t ht hlen
    rw [TensorImpl.compute_contiguous, if_neg (by simp [TensorImpl.is_empty, ht])]
    exact contiguousLoop_iff t.sizes_ t.strides_ hlen
  · intro sizes
    by_cases hnum : sizes.prod = 0
    · simp [TensorImpl.compute_contiguous, TensorImpl.is_empty, contigTensor,
        TensorImpl.ofFields, hnum]
    · rw [TensorImpl.compute_contiguous,
        if_neg (by simp [TensorImpl.is_empty, contigTensor, TensorImpl.ofFields, hnum])]
      exact (contiguousLoop_iff _ _ (contigStrides_length sizes)).mpr
        (contigStrides_matches sizes)

/-- Witness for C7: a 0-element tensor is contiguous, and the iff applied to a
concrete contiguous 2x3 tensor. -/
theorem compute_contiguous_spec_witness :
    (TensorImpl.ofStorage none TensorTypeId.CPUTensorId ScalarType.Float
      false).compute_contiguous = true ∧
    (TensorImpl.ofFields none 0 [2, 3] [3, 1] true 6
        TensorTypeId.CPUTensorId ScalarType.Float false false).compute_contiguous
      = true :=
  ⟨compute_contiguous_spec.1 _ rfl,
    (compute_contiguous_spec.2.1 _ (by decide) (by decide)).mpr (by decide)⟩

/-- Element count of a possibly-null storage: a null storage is empty. -/
def storageNumel : Option Storage → Nat
  | none => 0
  | some s => s.numel

/-- C8 counterexample: the claim says the default storage/type constructor
yields `dim() == 0`; the constructor initializes `sizes_{0}` (one dimension of
extent 0), so `dim()` is 1, not 0, at the concrete CPU/Float instance. -/
theorem default_tensor_dim_ne_zero :
    ¬ ((TensorImpl.ofTypeId TensorTypeId.CPUTensorId ScalarType.Float
      false).dim = 0) := by decide

/-- C8 (amended): a TensorImpl constructed by the default storage/type
constructor is 1-dimensional with sizes [0] and strides [1], contiguous, with
numel 0 and an empty (0-element or null) storage. -/
theorem default_tensor_state (type_id : TensorTypeId) (scalar_type : ScalarType)
    (is_variable : Bool) :
    (TensorImpl.ofTypeId type_id scalar_type is_variable).dim = 1 ∧
    (TensorImpl.ofTypeId type_id scalar_type is_variable).sizes_ = [0] ∧
    (TensorImpl.ofTypeId type_id scalar_type is_variable).strides_ = [1] ∧
    (TensorImpl.ofTypeId type_id scalar_type is_variable).is_contiguous_ = true ∧
    (TensorImpl.ofTypeId type_id scalar_type is_variable).numel_ = 0 ∧
    storageNumel (TensorImpl.ofTypeId type_id scalar_type is_variable).storage_ = 0 := by
  unfold TensorImpl.ofTypeId TensorImpl.ofStorage
  split <;> simp [TensorImpl.dim, storageNumel]

/- ===================== SparseTensorImpl ===================== -/

/-- Sparse COO metadata (SparseTensorImpl.h).  The two auxiliary tensors are
modelled by their shapes, which is all `resize_` reads or writes.
INVARIANTS (SparseTensorImpl.h lines 11-15): `sparseDims_ + denseDims_ =
size_.length`; `indices_` has shape `[sparseDims_, nnz]`; `values_` has shape
`nnz :: size_.drop sparseDims_`. -/
structure SparseTensorImpl where
  size_ : List Int
  sparseDims_ : Nat
  denseDims_ : Nat
  indices_ : List Int
  values_ : List Int
  coalesced_ : Bool
deriving DecidableEq, Repr

/-- SparseTensorImpl::nnz (line 41): `values_.size(0)`. -/
def SparseTensorImpl.nnz (t : SparseTensorImpl) : Int := t.values_.headD 0

/-- SparseTensorImpl::sizes (declared line 48; the override returns the logical
size `size_`, per the spec "logical `size` (dense equivalent shape)"). -/
def SparseTensorImpl.sizes (t : SparseTensorImpl) : List Int := t.size_

/-- The remediation guidance appended to both `resize_` rejection messages
(SparseTensorImpl.h lines 92-96). -/
def alt_options_msg : String :=
  "You could try the following options:\n1. If you need an empty sparse tensor of this size, call `x=torch.sparse_coo_tensor(size)`.\n2. If you need to resize this tensor, you have the following options:\n    1. Keep the number of sparse dimensions constant and the size of them non-shrinking, and try the same call again.\n    2. Or, create a new sparse tensor with this tensor\x27s `values` and the correct indices."

/-- The AT_CHECK message for a sparse/dense dimension-count mismatch
(SparseTensorImpl.h line 80). -/
def dims_mismatch_msg (sparseDims denseDims n : Nat) : String :=
  "number of dimensions must be sparseDims (" ++ toString sparseDims ++
    ") + denseDims (" ++ toString denseDims ++ "), but got " ++ toString n

/-- The AT_CHECK message for changing `sparseDims` on a non-empty sparse tensor
(SparseTensorImpl.h lines 98-99). -/
def sparse_dims_change_msg (oldDims newDims : Nat) : String :=
  "changing the number of sparse dimensions (from " ++ toString oldDims ++
    " to " ++ toString newDims ++
    ") on a non-empty sparse tensor is not supported.\n" ++ alt_options_msg

/-- The AT_CHECK message for shrinking a sparse dimension on a non-empty sparse
tensor (SparseTensorImpl.h lines 101-102). -/
def sparse_shrink_msg (sparse_size_original sparse_size_new : List Int) : String :=
  "shrinking the size of sparse dimensions (from " ++ toString sparse_size_original ++
    " to " ++ toString sparse_size_new ++
    ") on a non-empty sparse tensor is not supported.\n" ++ alt_options_msg

/-- SparseTensorImpl::resize_ (SparseTensorImpl.h lines 79-119).  AT_CHECK
failures are `.error` and happen before any field is written.  The source
guards both AT_CHECKs by one `if (nnz() > 0)` block; here that guard is
conjoined into each check, which is the same control flow. -/
def SparseTensorImpl.resize_ (t : SparseTensorImpl) (sparseDims denseDims : Nat)
    (size : List Int) : Except String SparseTensorImpl :=
  if sparseDims + denseDims ≠ size.length then
    .error (dims_mismatch_msg sparseDims denseDims size.length)
  else if 0 < t.nnz ∧ sparseDims ≠ t.sparseDims_ then
    .error (sparse_dims_change_msg t.sparseDims_ sparseDims)
  else if 0 < t.nnz ∧ ((t.sizes.take sparseDims).zip (size.take sparseDims)).any
      (fun p => decide (p.2 < p.1)) = true then
    .error (sparse_shrink_msg (t.sizes.take sparseDims) (size.take sparseDims))
  else
    let t1 :=
      if size ≠ t.size_ ∨ sparseDims ≠ t.sparseDims_ ∨ denseDims ≠ t.denseDims_ then
        let values_size := t.values_.headD 0 :: size.drop sparseDims
        let indices_size := (sparseDims : Int) :: t.indices_.tail
        { t with values_ := values_size, indices_ := indices_size }
      else t
    .ok { t1 with size_ := size, sparseDims_ := sparseDims, denseDims_ := denseDims }

/-- The state after a `resize_` call as the caller sees it: on an AT_CHECK
failure the exception propagates before any field was written, so the object is
as it was. -/
def SparseTensorImpl.resizeRun (t : SparseTensorImpl) (sparseDims denseDims : Nat)
    (size : List Int) : SparseTensorImpl :=
  match t.resize_ sparseDims denseDims size with
  | .ok t2 => t2
  | .error _ => t

theorem getD_take_eq (l : List Int) (n i : Nat) (hin : i < n) (d : Int) :
    (l.take n).getD i d = l.getD i d := by
  induction l generalizing n i with
  | nil => simp
  | cons x xs ih =>
    cases n with
    | zero => omega
    | succ m =>
      cases i with
      | zero => simp
      | succ j =>
        simp only [List.take_succ_cons, List.getD_cons_succ]
        exact ih m j (by omega) 

theorem zip_any_lt_of_exists (a b : List Int) (i : Nat) (hia : i < a.length)
    (hib : i < b.length) (hlt : b.getD i 0 < a.getD i 0) :
    (a.zip b).any (fun p => decide (p.2 < p.1)) = true := by
  induction a generalizing b i with
  | nil => simp at hia
  | cons x xs ih =>
    cases b with
    | nil => simp at hib
    | cons y ys =>
      cases i with
      | zero =>
        simp only [List.getD_cons_zero] at hlt
        simp [List.any_cons, hlt]
      | succ j =>
        simp only [List.getD_cons_succ] at hlt
        have := ih ys j (by simpa using Nat.lt_of_succ_lt_succ hia)
          (by simpa using Nat.lt_of_succ_lt_succ hib) hlt
        simp [List.any_cons, this]

/-- C2: on a non-empty sparse tensor (nnz > 0), `resize_` fails when the sparse
dimension count changes, and fails when a sparse dimension shrinks (count kept);
each message names the offending values and carries the remediation guidance,
and a failing call leaves shape, dim split, indices and values unchanged. -/
theorem sparse_resize_rejects_nonempty (t : SparseTensorImpl) (sd dd : Nat)
    (size : List Int) (hnnz : 0 < t.nnz) (hsum : sd + dd = size.length) :
    (sd ≠ t.sparseDims_ →
      t.resize_ sd dd size = .error (sparse_dims_change_msg t.sparseDims_ sd) ∧
      t.resizeRun sd dd size = t) ∧
    (sd = t.sparseDims_ → t.sparseDims_ + t.denseDims_ = t.size_.length →
      (∃ i, i < sd ∧ size.getD i 0 < t.size_.getD i 0) →
      t.resize_ sd dd size =
        .error (sparse_shrink_msg (t.size_.take sd) (size.take sd)) ∧
      t.resizeRun sd dd size = t) := by
  have hdims : ¬(sd + dd ≠ size.length) := by omega
  constructor
  · intro hne
    have herr : t.resize_ sd dd size =
        .error (sparse_dims_change_msg t.sparseDims_ sd) := by
      rw [SparseTensorImpl.resize_, if_neg hdims, if_pos ⟨hnnz, hne⟩]
    exact ⟨herr, by rw [SparseTensorImpl.resizeRun, herr]⟩
  · intro heq hinv hshrink
    have hshrb : ((t.sizes.take sd).zip (size.take sd)).any
        (fun p => decide (p.2 < p.1)) = true := by
      obtain ⟨i, hi, hlt⟩ := hshrink
      apply zip_any_lt_of_exists _ _ i
      · simp only [SparseTensorImpl.sizes, List.length_take]
        omega
      · simp only [List.length_take]
        omega
      · rw [show t.sizes = t.size_ from rfl, getD_take_eq _ _ _ hi,
          getD_take_eq _ _ _ hi]
        exact hlt
    have herr : t.resize_ sd dd size =
        .error (sparse_shrink_msg (t.size_.take sd) (size.take sd)) := by
      rw [SparseTensorImpl.resize_, if_neg hdims,
        if_neg (show ¬(0 < t.nnz ∧ sd ≠ t.sparseDims_) from fun h => h.2 heq),
        if_pos ⟨hnnz, hshrb⟩, show t.sizes = t.size_ from rfl]
    exact ⟨herr, by rw [SparseTensorImpl.resizeRun, herr]⟩

/-- Witness for C2 (the spec scenario): a [4,4] sparse tensor with nnz = 3:
`resize_(1, 1, [6,6])` fails with the dimension-count message and
`resize_(2, 0, [3,6])` fails with the shrink message; both leave it unchanged. -/
theorem sparse_resize_rejects_nonempty_witness :
    ((SparseTensorImpl.mk [4, 4] 2 0 [2, 3] [3] false).resize_ 1 1 [6, 6] =
        .error (sparse_dims_change_msg 2 1) ∧
      (SparseTensorImpl.mk [4, 4] 2 0 [2, 3] [3] false).resizeRun 1 1 [6, 6] =
        SparseTensorImpl.mk [4, 4] 2 0 [2, 3] [3] false) ∧
    ((SparseTensorImpl.mk [4, 4] 2 0 [2, 3] [3] false).resize_ 2 0 [3, 6] =
        .error (sparse_shrink_msg [4, 4] [3, 6]) ∧
      (SparseTensorImpl.mk [4, 4] 2 0 [2, 3] [3] false).resizeRun 2 0 [3, 6] =
        SparseTensorImpl.mk [4, 4] 2 0 [2, 3] [3] false) :=
  ⟨(sparse_resize_rejects_nonempty _ 1 1 [6, 6] (by decide) (by decide)).1
      (by decide),
    (sparse_resize_rejects_nonempty
        (SparseTensorImpl.mk [4, 4] 2 0 [2, 3] [3] false) 2 0 [3, 6]
        (by decide) (by decide)).2 (by decide) (by decide)
      ⟨0, by decide, by decide⟩⟩

/-- C3: a successful `resize_` keeps `nnz` unchanged and reestablishes the
shape invariants: `indices.shape[0] = sparseDims`, `indices.shape[1] =
values.shape[0]`, and the trailing dimensions of `values` are the dense part of
the new size.  The two shape hypotheses are the INVARIANTS documented at
SparseTensorImpl.h lines 11-15. -/
theorem sparse_resize_ok_invariants (t t2 : SparseTensorImpl) (sd dd : Nat)
    (size : List Int)
    (hI : t.indices_ = [(t.sparseDims_ : Int), t.nnz])
    (hV : t.values_ = t.nnz :: t.size_.drop t.sparseDims_)
    (hok : t.resize_ sd dd size = .ok t2) :
    t2.nnz = t.nnz ∧
    t2.indices_.headD 0 = (sd : Int) ∧
    t2.indices_.getD 1 0 = t2.values_.headD 0 ∧
    t2.values_.tail = size.drop sd := by
  rw [SparseTensorImpl.resize_] at hok
  split at hok
  · exact absurd hok (by simp)
  · split at hok
    · exact absurd hok (by simp)
    · split at hok
      · exact absurd hok (by simp)
      · rename_i hd hcount hshrink
        simp only [Except.ok.injEq] at hok
        subst hok
        by_cases hchange : size ≠ t.size_ ∨ sd ≠ t.sparseDims_ ∨ dd ≠ t.denseDims_
        · rw [if_pos hchange]
          refine ⟨rfl, rfl, ?_, rfl⟩
          show ((sd : Int) :: t.indices_.tail).getD 1 0 = _
          rw [hI]
          rfl
        · rw [if_neg hchange]
          push_neg at hchange
          obtain ⟨hsz, hsd, hdd⟩ := hchange
          refine ⟨rfl, ?_, ?_, ?_⟩
          · show t.indices_.headD 0 = (sd : Int)
            rw [hI, hsd]
            rfl
          · show t.indices_.getD 1 0 = t.values_.headD 0
            rw [hI]
            rfl
          · show t.values_.tail = size.drop sd
            rw [hV, hsz, hsd]
            rfl

/-- Witness for C3 (the spec scenario): the [4,4] sparse tensor with nnz = 3
resized by `resize_(2, 0, [6,6])` succeeds with nnz still 3 and the invariants
holding afterwards. -/
theorem sparse_resize_ok_invariants_witness :
    (SparseTensorImpl.mk [6, 6] 2 0 [2, 3] [3] false).nnz =
        (SparseTensorImpl.mk [4, 4] 2 0 [2, 3] [3] false).nnz ∧
      (SparseTensorImpl.mk [6, 6] 2 0 [2, 3] [3] false).indices_.headD 0 = (2 : Int) ∧
      (SparseTensorImpl.mk [6, 6] 2 0 [2, 3] [3] false).indices_.getD 1 0 =
        (SparseTensorImpl.mk [6, 6] 2 0 [2, 3] [3] false).values_.headD 0 ∧
      (SparseTensorImpl.mk [6, 6] 2 0 [2, 3] [3] false).values_.tail =
        List.drop 2 [6, 6] :=
  sparse_resize_ok_invariants (SparseTensorImpl.mk [4, 4] 2 0 [2, 3] [3] false)
    (SparseTensorImpl.mk [6, 6] 2 0 [2, 3] [3] false) 2 0 [6, 6]
    (by decide) (by decide) rfl

/- ===================== Autograd: Variable / ViewImpl ===================== -/

/-- at::TensorGeometry: sizes, strides, storage offset of a tensor. -/
structure TensorGeometry where
  sizes : List Int
  strides : List Int
  storage_offset : Int
deriving DecidableEq, Repr

/-- The data tensor wrapped by a Variable: its geometry, its `at::Type`
identity (backend plus scalar type, opaque here as a tag), CUDA-ness and device
index, and the `is_variable` tag. -/
structure VarData where
  geometry : TensorGeometry
  typeTag : Nat
  isCuda : Bool
  device : Int
  is_variable : Bool
deriving DecidableEq, Repr

/-- Input metadata recorded on a backward node by `add_input_metadata(type,
shape, device)` (torch::autograd::Function, function.h — not among the source
files; modelled from the call sites in variable.cpp). -/
structure InputMeta where
  typeTag : Nat
  shape : List Int
  device : Int
deriving DecidableEq, Repr

/-- A backward-graph node (torch::autograd::Function; the spec's BackwardNode).
`external` stands for the code-generated per-operation nodes supplied by
collaborators (spec section 6), carrying its `num_inputs`;
`asStridedBackward` is the node `grad_fn()` synthesizes for a stale view
(generated::AsStridedBackward, with the fields variable.cpp lines 200-209
assigns); `copySlices` the composite node `rebase_history` builds (CopySlices:
the base it scatters into, the view's geometry, and the wrapped function);
`accumulateGrad` a leaf's gradient accumulator (AccumulateGrad) carrying the
input metadata recorded at construction.  An edge is a (function, input_nr)
pair. -/
inductive BackwardNode where
  | external (id : Nat) (numInputs : Nat) (metas : List InputMeta)
  | asStridedBackward (self_geometry : TensorGeometry) (size : List Int)
      (stride : List Int) (storage_offset : Int)
      (next_edges : List (Option BackwardNode × Nat)) (metas : List InputMeta)
  | copySlices (base_geometry : TensorGeometry) (view_geometry : TensorGeometry)
      (fn : BackwardNode)
  | accumulateGrad (meta : InputMeta)

/-- Edge = (function, input_nr) (torch::autograd::Edge). -/
abbrev Edge := Option BackwardNode × Nat

/-- Function::num_inputs().  The wrapped node kinds the source constructs take
one input (they are built from a single output); `external` nodes carry
theirs. -/
def BackwardNode.num_inputs : BackwardNode → Nat
  | .external _ n _ => n
  | .asStridedBackward _ _ _ _ _ _ => 1
  | .copySlices _ _ _ => 1
  | .accumulateGrad _ => 1

/-- `input_metadata(0).device()` of a node (used by set_data; function.h is not
among the source files, so this accessor is modelled from its use at
variable.cpp line 157). -/
def BackwardNode.inputMetaDevice : BackwardNode → Int
  | .external _ _ metas => (metas.headD ⟨0, [], -1⟩).device
  | .asStridedBackward _ _ _ _ _ metas => (metas.headD ⟨0, [], -1⟩).device
  | .copySlices _ _ fn => fn.inputMetaDevice
  | .accumulateGrad meta => meta.device

/-- Modelled from the spec / accumulate_grad.h (not among the source files):
`add_input_metadata(variable)` records the variable's type, shape, and device
(−1 when not CUDA). -/
def VarData.inputMeta (d : VarData) : InputMeta :=
  { typeTag := d.typeTag
    shape := d.geometry.sizes
    device := if d.isCuda then d.device else -1 }

/-- A non-view Variable::Impl.  `version_counter` is the shared VersionCounter:
every view of this base reads it through its `base` reference, which models the
sharing.  `grad_accumulator_` is the weak-pointer cache (`lock()` returning
non-null is `some`). -/
structure BaseVar where
  data : VarData
  requires_grad_ : Bool
  grad_fn_ : Option BackwardNode
  output_nr_ : Nat
  version_counter : Nat
  grad_accumulator_ : Option BackwardNode

/-- A Variable::ViewImpl.  `base` is the (never-a-view) base; `attr_version`
the version last observed when `grad_fn_` was computed.  The inherited
`grad_accumulator_` cache is kept for fidelity with Impl. -/
structure ViewVar where
  base : BaseVar
  data : VarData
  requires_grad_ : Bool
  grad_fn_ : Option BackwardNode
  output_nr_ : Nat
  grad_accumulator_ : Option BackwardNode
  attr_version : Nat

/-- A Variable: its impl is either a plain Impl or a ViewImpl. -/
inductive Variable where
  | base (b : BaseVar)
  | view (w : ViewVar)

/-- Variable::requires_grad (variable.cpp lines 99-101) for a non-view
receiver: `requires_grad_ || grad_fn_` (the `is_view_` clause cannot fire). -/
def BaseVar.requires_grad (b : BaseVar) : Bool :=
  b.requires_grad_ || b.grad_fn_.isSome

/-- Variable::requires_grad (variable.cpp lines 99-101):
`requires_grad_ || grad_fn_ || (is_view_ && base().requires_grad())`. -/
def Variable.requires_grad : Variable → Bool
  | .base b => b.requires_grad
  | .view w => w.requires_grad_ || w.grad_fn_.isSome || w.base.requires_grad

/-- The `grad_fn_` member of the receiver's impl. -/
def Variable.grad_fn_ : Variable → Option BackwardNode
  | .base b => b.grad_fn_
  | .view w => w.grad_fn_

/-- The `requires_grad_` member of the receiver's impl. -/
def Variable.requires_grad_ : Variable → Bool
  | .base b => b.requires_grad_
  | .view w => w.requires_grad_

/-- The `grad_accumulator_` weak cache of the receiver's impl (`lock()`ed). -/
def Variable.grad_accumulator_ : Variable → Option BackwardNode
  | .base b => b.grad_accumulator_
  | .view w => w.grad_accumulator_

/-- The wrapped data tensor of the receiver's impl. -/
def Variable.data : Variable → VarData
  | .base b => b.data
  | .view w => w.data

/-- Replace the `grad_accumulator_` cache of the receiver's impl. -/
def Variable.withGradAccumulator : Variable → Option BackwardNode → Variable
  | .base b, c => .base { b with grad_accumulator_ := c }
  | .view w, c => .view { w with grad_accumulator_ := c }

/-- Replace the wrapped data tensor (`tensor_impl_ = new_data...`). -/
def Variable.withData : Variable → VarData → Variable
  | .base b, d => .base { b with data := d }
  | .view w, d => .view { w with data := d }

/-- Modelled from the spec: `Variable::gradient_edge` / `collect_next_edges`
(variable.h / function.h, not among the source files) — the base's gradient
source: its `grad_fn` with its output number when present, otherwise its
gradient accumulator (none when the base does not require grad).  This pure
reading does not store a freshly built accumulator back into the weak cache. -/
def BaseVar.gradient_edge (b : BaseVar) : Edge :=
  match b.grad_fn_ with
  | some fn => (some fn, b.output_nr_)
  | none =>
    if b.requires_grad_ then
      (some (match b.grad_accumulator_ with
        | some r => r
        | none => BackwardNode.accumulateGrad b.data.inputMeta), 0)
    else (none, 0)

/-- Variable::grad_accumulator (variable.cpp lines 111-135): logic error on a
non-leaf; empty when `requires_grad_` is false; otherwise the cached
accumulator if the weak pointer is alive, else a freshly built AccumulateGrad
that is stored into the cache.  Returns the result and the updated wrapper. -/
def Variable.grad_accumulator (v : Variable) :
    Except String (Option BackwardNode × Variable) :=
  if v.grad_fn_.isSome then
    .error "grad_accumulator() should be only called on leaf Variables"
  else if !v.requires_grad_ then .ok (none, v)
  else
    match v.grad_accumulator_ with
    | some result => .ok (some result, v)
    | none =>
      let result := BackwardNode.accumulateGrad (v.data).inputMeta
      .ok (some result, v.withGradAccumulator (some result))

/-- Variable::set_data (variable.cpp lines 152-168): if the cached accumulator
is alive and the new data's type differs from the wrapper's current type, or
the new device differs from the accumulator's recorded device, the cache is
reset; then the wrapped tensor is replaced; AT_ASSERT requires the new data to
be a variable. -/
def Variable.set_data (v : Variable) (new_data : VarData) :
    Except String Variable :=
  let v1 :=
    match v.grad_accumulator_ with
    | some prior_accumulator =>
      let prior_device := prior_accumulator.inputMetaDevice
      let new_device := if new_data.isCuda then new_data.device else -1
      if new_data.typeTag ≠ (v.data).typeTag ∨ prior_device ≠ new_device then
        v.withGradAccumulator none
      else v
    | none => v
  if new_data.is_variable then .ok (v1.withData new_data)
  else .error "tensor_impl_->is_variable()"

/-- The AsStridedBackward node `grad_fn()` builds for a stale view
(variable.cpp lines 200-209): the base's current geometry, the view's current
sizes/strides/storage offset, the next edge collected from the base, and input
metadata of the base's type, the VIEW's sizes, and the base's device. -/
def ViewVar.asStridedNode (w : ViewVar) : BackwardNode :=
  BackwardNode.asStridedBackward
    w.base.data.geometry
    w.data.geometry.sizes
    w.data.geometry.strides
    w.data.geometry.storage_offset
    [w.base.gradient_edge]
    [{ typeTag := w.base.data.typeTag
       shape := w.data.geometry.sizes
       device := if w.base.data.isCuda then w.base.data.device else -1 }]

/-- Variable::grad_fn for a view receiver (variable.cpp lines 188-214):
if there is no own `grad_fn_` and the base does not require grad, return the
(empty) `grad_fn_`; otherwise compare `attr_version` with the shared counter's
current value and return the cache when unchanged, else (AT_ASSERT
`output_nr_ == 0`) build the AsStridedBackward node, store it and the current
version, and return it.  Returns the result and the updated view. -/
def ViewVar.grad_fn (w : ViewVar) :
    Except String (Option BackwardNode × ViewVar) :=
  if w.grad_fn_.isNone && !w.base.requires_grad then .ok (w.grad_fn_, w)
  else
    let current_version := w.base.version_counter
    if w.attr_version ≠ current_version then
      if w.output_nr_ ≠ 0 then .error "view_impl->output_nr_ == 0"
      else
        let fn := w.asStridedNode
        .ok (some fn, { w with grad_fn_ := some fn, attr_version := current_version })
    else .ok (w.grad_fn_, w)

/-- Variable::grad_fn (variable.cpp lines 188-214): a non-view returns its
`grad_fn_` member; a view runs the lazy-rebuild algorithm. -/
def Variable.grad_fn : Variable → Except String (Option BackwardNode × Variable)
  | .base b => .ok (b.grad_fn_, .base b)
  | .view w =>
    match w.grad_fn with
    | .ok (r, w2) => .ok (r, .view w2)
    | .error e => .error e

/-- Modelled from the spec: `Variable::set_gradient_edge` (variable.h, not
among the source files) — install the edge's function as `grad_fn_` and its
input number as `output_nr_`. -/
def BaseVar.set_gradient_edge (b : BaseVar) (e : Edge) : BaseVar :=
  { b with grad_fn_ := e.1, output_nr_ := e.2 }

/-- Variable::rebase_history (variable.cpp lines 221-239): AT_ASSERT the edge's
function is non-null; for a view, AT_ASSERT `input_nr == 0`, AT_CHECK the
function takes exactly one input, set `output_nr_`, build the CopySlices
composite over (base, view geometry, function), install it as the BASE's
gradient edge, and call `grad_fn()` to trigger an update of the view's cache;
for a non-view, simply replace the gradient edge. -/
def Variable.rebase_history (v : Variable) (gradient_edge : Edge) :
    Except String Variable :=
  match gradient_edge.1 with
  | none => .error "gradient_edge.function != nullptr"
  | some fn =>
    match v with
    | .view w =>
      if gradient_edge.2 ≠ 0 then .error "gradient_edge.input_nr == 0"
      else if fn.num_inputs ≠ 1 then
        .error "Functions which modify views in-place must return a single Variable"
      else
        let w1 := { w with output_nr_ := gradient_edge.2 }
        let copy_slices :=
          BackwardNode.copySlices w1.base.data.geometry w1.data.geometry fn
        let w2 := { w1 with base := w1.base.set_gradient_edge (some copy_slices, 0) }
        match w2.grad_fn with
        | .ok (_, w3) => .ok (.view w3)
        | .error e => .error e
    | .base b => .ok (.base (b.set_gradient_edge gradient_edge))

/-- Variable::ViewImpl::ViewImpl (variable.cpp lines 176-186): AT_CHECK the
base is defined (`none` models an undefined Variable); collapse a view base to
its own base; adopt the base's VersionCounter (modelled by holding `base`) and
snapshot its current version as `attr_version`.  The inherited Impl constructor
(lines 24-35) sets `grad_fn_` and `output_nr_` from the edge with
`requires_grad_` false (member default), so its AT_CHECK passes. -/
def ViewImpl.mk (data : VarData) (base : Option Variable) (gradient_edge : Edge) :
    Except String ViewVar :=
  match base with
  | none => .error "base is undefined"
  | some bv =>
    let b := match bv with
      | .base b => b
      | .view w => w.base
    .ok { base := b
          data := data
          requires_grad_ := false
          grad_fn_ := gradient_edge.1
          output_nr_ := gradient_edge.2
          grad_accumulator_ := none
          attr_version := b.version_counter }

/- Sample concrete values used by witnesses. -/

def sampleGeometry : TensorGeometry :=
  { sizes := [2, 3], strides := [3, 1], storage_offset := 0 }

def sampleData : VarData :=
  { geometry := sampleGeometry, typeTag := 0, isCuda := false, device := -1,
    is_variable := true }

def sampleViewData : VarData :=
  { sampleData with geometry := { sizes := [3], strides := [1], storage_offset := 3 } }

def sampleBase : BaseVar :=
  { data := sampleData, requires_grad_ := true, grad_fn_ := none,
    output_nr_ := 0, version_counter := 7, grad_accumulator_ := none }

/-- A view of `sampleBase` whose cached version (6) is stale against the
base's counter (7). -/
def staleView : ViewVar :=
  { base := sampleBase, data := sampleViewData, requires_grad_ := false,
    grad_fn_ := none, output_nr_ := 0, grad_accumulator_ := none,
    attr_version := 6 }

def sampleAccumulator : BackwardNode :=
  BackwardNode.accumulateGrad sampleData.inputMeta

def sampleLeaf : BaseVar :=
  { data := sampleData, requires_grad_ := true, grad_fn_ := none,
    output_nr_ := 0, version_counter := 0, grad_accumulator_ := none }

/- Helper lemmas about ViewVar.grad_fn, shared by several proofs. -/

theorem grad_fn_no_history (w : ViewVar) (h1 : w.grad_fn_ = none)
    (h2 : w.base.requires_grad = false) : w.grad_fn = .ok (none, w) := by
  simp [ViewVar.grad_fn, h1, h2]

theorem grad_fn_hist_cond (w : ViewVar)
    (hcond : w.grad_fn_.isSome = true ∨ w.base.requires_grad = true) :
    (w.grad_fn_.isNone && !w.base.requires_grad) = false := by
  rcases hcond with h | h
  · cases hgf : w.grad_fn_ with
    | none => rw [hgf] at h; simp at h
    | some a => simp [hgf]
  · simp [h]

theorem grad_fn_cached (w : ViewVar)
    (hcond : w.grad_fn_.isSome = true ∨ w.base.requires_grad = true)
    (hv : w.attr_version = w.base.version_counter) :
    w.grad_fn = .ok (w.grad_fn_, w) := by
  simp [ViewVar.grad_fn, grad_fn_hist_cond w hcond, hv]

theorem grad_fn_stale_rebuild (w : ViewVar)
    (hcond : w.grad_fn_.isSome = true ∨ w.base.requires_grad = true)
    (hv : w.attr_version ≠ w.base.version_counter)
    (hout : w.output_nr_ = 0) :
    w.grad_fn = .ok (some w.asStridedNode,
      { w with grad_fn_ := some w.asStridedNode,
               attr_version := w.base.version_counter }) := by
  simp [ViewVar.grad_fn, grad_fn_hist_cond w hcond, hv, hout]

/-- C1: `grad_fn()` on a view: empty when there is no own grad_fn and the base
does not require grad; the unchanged cache when `attr_version` matches the
shared counter; otherwise a freshly built AsStridedBackward recording the
base's current geometry and the view's current sizes/strides/offset, with its
upstream edge the base's gradient source, stored into the cache together with
the current version. -/
theorem grad_fn_view_spec (w : ViewVar) :
    (w.grad_fn_ = none → w.base.requires_grad = false →
      w.grad_fn = .ok (none, w)) ∧
    ((w.grad_fn_.isSome = true ∨ w.base.requires_grad = true) →
      w.attr_version = w.base.version_counter →
      w.grad_fn = .ok (w.grad_fn_, w)) ∧
    ((w.grad_fn_.isSome = true ∨ w.base.requires_grad = true) →
      w.attr_version ≠ w.base.version_counter →
      w.output_nr_ = 0 →
      w.grad_fn = .ok (some w.asStridedNode,
        { w with grad_fn_ := some w.asStridedNode,
                 attr_version := w.base.version_counter })) :=
  ⟨grad_fn_no_history w, grad_fn_cached w, grad_fn_stale_rebuild w⟩

/-- Witness for C1: the stale sample view rebuilds its grad_fn and caches the
current version. -/
theorem grad_fn_view_spec_witness :
    staleView.grad_fn = .ok (some staleView.asStridedNode,
      { staleView with grad_fn_ := some staleView.asStridedNode,
                       attr_version := staleView.base.version_counter }) :=
  (grad_fn_view_spec staleView).2.2 (Or.inr rfl) (by decide) rfl

/-- C5: constructing a view with an undefined base fails; a view-of-a-view
collapses its base to the inner view's own base at construction (so no view's
base is ever a view — also enforced by `ViewVar.base`'s type); the new view
snapshots the base's current version as `attr_version` (and shares the base's
VersionCounter by holding `base`). -/
theorem view_construction_spec :
    (∀ (d : VarData) (e : Edge), ViewImpl.mk d none e = .error "base is undefined") ∧
    (∀ (d : VarData) (b : BaseVar) (e : Edge),
      ViewImpl.mk d (some (.base b)) e =
        .ok { base := b, data := d, requires_grad_ := false, grad_fn_ := e.1,
              output_nr_ := e.2, grad_accumulator_ := none,
              attr_version := b.version_counter }) ∧
    (∀ (d : VarData) (w : ViewVar) (e : Edge),
      ViewImpl.mk d (some (.view w)) e =
        .ok { base := w.base, data := d, requires_grad_ := false, grad_fn_ := e.1,
              output_nr_ := e.2, grad_accumulator_ := none,
              attr_version := w.base.version_counter }) ∧
    (∀ (d : VarData) (v : Variable) (e : Edge) (w2 : ViewVar),
      ViewImpl.mk d (some v) e = .ok w2 →
        w2.attr_version = w2.base.version_counter) := by
  refine ⟨fun d e => rfl, fun d b e => rfl, fun d w e => rfl, ?_⟩
  intro d v e w2 h
  cases v with
  | base b =>
    have : w2 =
        { base := b, data := d, requires_grad_ := false, grad_fn_ := e.1,
          output_nr_ := e.2, grad_accumulator_ := none,
          attr_version := b.version_counter } := by
      simpa [ViewImpl.mk] using h.symm
    rw [this]
  | view w =>
    have : w2 =
        { base := w.base, data := d, requires_grad_ := false,
          grad_fn_ := e.1, output_nr_ := e.2, grad_accumulator_ := none,
          attr_version := w.base.version_counter } := by
      simpa [ViewImpl.mk] using h.symm
    rw [this]

/-- Witness for C5: the snapshot property at a concrete construction. -/
theorem view_construction_spec_witness :
    ({ base := sampleBase, data := sampleViewData, requires_grad_ := false,
       grad_fn_ := none, output_nr_ := 0, grad_accumulator_ := none,
       attr_version := sampleBase.version_counter } : ViewVar).attr_version =
      ({ base := sampleBase, data := sampleViewData, requires_grad_ := false,
         grad_fn_ := none, output_nr_ := 0, grad_accumulator_ := none,
         attr_version := sampleBase.version_counter } : ViewVar).base.version_counter :=
  view_construction_spec.2.2.2 sampleViewData (.base sampleBase) (none, 0) _ rfl

/- Frame lemmas for the record-update helpers. -/

theorem withGradAccumulator_grad_fn_ (v : Variable) (c : Option BackwardNode) :
    (v.withGradAccumulator c).grad_fn_ = v.grad_fn_ := by
  cases v <;> rfl

theorem withGradAccumulator_requires_grad_ (v : Variable) (c : Option BackwardNode) :
    (v.withGradAccumulator c).requires_grad_ = v.requires_grad_ := by
  cases v <;> rfl

theorem withGradAccumulator_grad_accumulator_ (v : Variable) (c : Option BackwardNode) :
    (v.withGradAccumulator c).grad_accumulator_ = c := by
  cases v <;> rfl

theorem withData_grad_accumulator_ (v : Variable) (d : VarData) :
    (v.withData d).grad_accumulator_ = v.grad_accumulator_ := by
  cases v <;> rfl

/-- C4: `rebase_history` on a view rejects a function taking more than one
input; with exactly one input (and the base's counter advanced by the in-place
mutation that precedes rebasing) it installs the CopySlices composite as the
BASE's new gradient edge and recomputes the view's own cached grad_fn; on a
non-view it simply replaces the gradient edge. -/
theorem rebase_history_spec :
    (∀ (w : ViewVar) (fn : BackwardNode),
      fn.num_inputs ≠ 1 →
      Variable.rebase_history (.view w) (some fn, 0) =
        .error "Functions which modify views in-place must return a single Variable") ∧
    (∀ (w : ViewVar) (fn : BackwardNode),
      fn.num_inputs = 1 →
      w.attr_version ≠ w.base.version_counter →
      ∃ w3 : ViewVar,
        Variable.rebase_history (.view w) (some fn, 0) = .ok (.view w3) ∧
        w3.base.grad_fn_ =
          some (BackwardNode.copySlices w.base.data.geometry w.data.geometry fn) ∧
        w3.grad_fn_ = some w3.asStridedNode ∧
        w3.attr_version = w.base.version_counter) ∧
    (∀ (b : BaseVar) (fn : BackwardNode) (k : Nat),
      Variable.rebase_history (.base b) (some fn, k) =
        .ok (.base (b.set_gradient_edge (some fn, k)))) := by
  refine ⟨?_, ?_, fun b fn k => rfl⟩
  · intro w fn h1
    show (if fn.num_inputs ≠ 1 then
        (.error "Functions which modify views in-place must return a single Variable"
          : Except String Variable)
      else _) = _
    rw [if_pos h1]
  · intro w fn h1 hv
    let w2ex : ViewVar :=
      { w with output_nr_ := 0,
               base := w.base.set_gradient_edge
                 (some (BackwardNode.copySlices w.base.data.geometry
                   w.data.geometry fn), 0) }
    have hreq : w2ex.base.requires_grad = true := by
      simp [BaseVar.requires_grad, BaseVar.set_gradient_edge, w2ex]
    have hw2g := grad_fn_stale_rebuild w2ex (Or.inr hreq) hv rfl
    refine ⟨{ w2ex with grad_fn_ := some w2ex.asStridedNode,
                        attr_version := w.base.version_counter }, ?_, rfl, rfl, rfl⟩
    show (if fn.num_inputs ≠ 1 then
        (.error "Functions which modify views in-place must return a single Variable"
          : Except String Variable)
      else
        match w2ex.grad_fn with
        | .ok (_, w3) => .ok (.view w3)
        | .error e => .error e) = _
    rw [if_neg (show ¬(fn.num_inputs ≠ 1) from fun h => h h1), hw2g]
    rfl

/-- Witness for C4: a two-input function is rejected on the sample view. -/
theorem rebase_history_spec_witness :
    Variable.rebase_history (.view staleView) (some (BackwardNode.external 0 2 []), 0) =
      .error "Functions which modify views in-place must return a single Variable" :=
  rebase_history_spec.1 staleView (BackwardNode.external 0 2 []) (by decide)

/-- C6: `grad_accumulator()` fails with a logic error on a non-leaf (a wrapper
with a grad_fn); returns empty when `requires_grad()` is false; and a second
call on the state left by a successful call returns the identical accumulator
object (the weak cache, while alive, is returned as-is). -/
theorem grad_accumulator_spec (v : Variable) :
    (v.grad_fn_.isSome = true →
      v.grad_accumulator =
        .error "grad_accumulator() should be only called on leaf Variables") ∧
    (v.grad_fn_ = none → v.requires_grad = false →
      v.grad_accumulator = .ok (none, v)) ∧
    (∀ (r : BackwardNode) (v2 : Variable),
      v.grad_accumulator = .ok (some r, v2) →
      v2.grad_accumulator = .ok (some r, v2)) := by
  refine ⟨?_, ?_, ?_⟩
  · intro h
    rw [Variable.grad_accumulator, if_pos h]
  · intro h1 h2
    have hrg : v.requires_grad_ = false := by
      cases v with
      | base b =>
        simp only [Variable.requires_grad, BaseVar.requires_grad,
          Bool.or_eq_false_iff] at h2
        exact h2.1
      | view w =>
        simp only [Variable.requires_grad, Bool.or_eq_false_iff] at h2
        exact h2.1.1
    rw [Variable.grad_accumulator, if_neg (by simp [h1]), if_pos (by simp [hrg])]
  · intro r v2 heq
    by_cases hgf : v.grad_fn_.isSome = true
    · rw [Variable.grad_accumulator, if_pos hgf] at heq
      exact absurd heq (by simp)
    · by_cases hrg : v.requires_grad_ = true
      · have hnn : ¬((!v.requires_grad_) = true) := by simp [hrg]
        cases hacc : v.grad_accumulator_ with
        | some c =>
          rw [Variable.grad_accumulator, if_neg hgf, if_neg hnn, hacc] at heq
          have h1 : some c = some r ∧ v = v2 := by simpa using heq
          obtain ⟨hcr, hvv⟩ := h1
          have hcr' : c = r := by simpa using hcr
          subst hcr'
          subst hvv
          rw [Variable.grad_accumulator, if_neg hgf, if_neg hnn, hacc]
        | none =>
          rw [Variable.grad_accumulator, if_neg hgf, if_neg hnn, hacc] at heq
          have h1 : some (BackwardNode.accumulateGrad (v.data).inputMeta) = some r ∧
              v.withGradAccumulator
                (some (BackwardNode.accumulateGrad (v.data).inputMeta)) = v2 := by
            simpa using heq
          obtain ⟨hcr, hvv⟩ := h1
          have hcr' : BackwardNode.accumulateGrad (v.data).inputMeta = r := by
            simpa using hcr
          subst hvv
          subst hcr'
          rw [Variable.grad_accumulator, withGradAccumulator_grad_fn_, if_neg hgf,
            withGradAccumulator_requires_grad_, if_neg hnn,
            withGradAccumulator_grad_accumulator_]
      · have hrgf : v.requires_grad_ = false := by
          revert hrg
          cases v.requires_grad_ <;> simp
        rw [Variable.grad_accumulator, if_neg hgf, if_pos (by simp [hrgf])] at heq
        exact absurd heq (by simp)

/-- Witness for C6: on the sample leaf whose cache already holds the sample
accumulator, `grad_accumulator()` returns that identical object again. -/
theorem grad_accumulator_spec_witness :
    ((Variable.base sampleLeaf).withGradAccumulator
        (some sampleAccumulator)).grad_accumulator =
      .ok (some sampleAccumulator,
        (Variable.base sampleLeaf).withGradAccumulator (some sampleAccumulator)) :=
  (grad_accumulator_spec (Variable.base sampleLeaf)).2.2 sampleAccumulator
    ((Variable.base sampleLeaf).withGradAccumulator (some sampleAccumulator)) rfl

def sampleLeafCached : BaseVar :=
  { sampleLeaf with grad_accumulator_ := some sampleAccumulator }

/-- C10: with a live cached accumulator, `set_data` resets the cache exactly
when the new data's type differs from the wrapper's current type or its device
differs from the accumulator's recorded device; when both match the cache is
preserved; in every case the wrapped tensor is replaced by the new data, which
is asserted to be a variable. -/
theorem set_data_spec (v : Variable) (new_data : VarData) (acc : BackwardNode)
    (hacc : v.grad_accumulator_ = some acc) :
    (new_data.is_variable = true →
      (new_data.typeTag ≠ (v.data).typeTag ∨
        acc.inputMetaDevice ≠ (if new_data.isCuda then new_data.device else -1)) →
      v.set_data new_data = .ok ((v.withGradAccumulator none).withData new_data) ∧
      ((v.withGradAccumulator none).withData new_data).grad_accumulator_ = none) ∧
    (new_data.is_variable = true →
      new_data.typeTag = (v.data).typeTag →
      acc.inputMetaDevice = (if new_data.isCuda then new_data.device else -1) →
      v.set_data new_data = .ok (v.withData new_data) ∧
      (v.withData new_data).grad_accumulator_ = some acc) ∧
    (new_data.is_variable = false →
      v.set_data new_data = .error "tensor_impl_->is_variable()") := by
  refine ⟨?_, ?_, ?_⟩
  · intro hvar hd
    constructor
    · simp only [Variable.set_data, hacc]
      rw [if_pos hd, if_pos hvar]
    · rw [withData_grad_accumulator_, withGradAccumulator_grad_accumulator_]
  · intro hvar ht hdev
    have hnd : ¬(new_data.typeTag ≠ (v.data).typeTag ∨
        acc.inputMetaDevice ≠ (if new_data.isCuda then new_data.device else -1)) := by
      push_neg
      exact ⟨ht, hdev⟩
    constructor
    · simp only [Variable.set_data, hacc]
      rw [if_neg hnd, if_pos hvar]
    · rw [withData_grad_accumulator_, hacc]
  · intro hvar
    simp only [Variable.set_data, hacc]
    rw [if_neg (show ¬(new_data.is_variable = true) by simp [hvar])]

/-- Witness for C10: on the cached sample leaf, set_data with a different type
tag drops the accumulator; set_data with matching type and device keeps it. -/
theorem set_data_spec_witness :
    ((Variable.base sampleLeafCached).set_data { sampleData with typeTag := 1 } =
        .ok (((Variable.base sampleLeafCached).withGradAccumulator none).withData
          { sampleData with typeTag := 1 }) ∧
      (((Variable.base sampleLeafCached).withGradAccumulator none).withData
          { sampleData with typeTag := 1 }).grad_accumulator_ = none) ∧
    ((Variable.base sampleLeafCached).set_data sampleViewData =
        .ok ((Variable.base sampleLeafCached).withData sampleViewData) ∧
      ((Variable.base sampleLeafCached).withData sampleViewData).grad_accumulator_ =
        some sampleAccumulator) :=
  ⟨(set_data_spec (Variable.base sampleLeafCached) { sampleData with typeTag := 1 }
      sampleAccumulator rfl).1 rfl (Or.inl (by decide)),
    (set_data_spec (Variable.base sampleLeafCached) sampleViewData
      sampleAccumulator rfl).2.1 rfl rfl rfl⟩

/- ===================== QTensorImpl ===================== -/

/-- The c10-era TensorImpl fields QTensorImpl's shallow-copy helpers touch.
That class (c10/core/TensorImpl.h) is not among the source files; its fields
are modelled from the spec's TensorMetadata attributes plus the version stamp
and the `allow_metadata_change` mutability flag the spec describes for shallow
copy/detach. -/
structure C10TensorImpl where
  storage : Option Storage
  storage_offset : Int
  sizes : List Int
  strides : List Int
  numel : Int
  is_contiguous : Bool
  type_id : TensorTypeId
  version_counter : Nat
  allow_tensor_metadata_change : Bool
deriving DecidableEq, Repr

/-- A quantized tensor's metadata: base TensorImpl plus the opaque Quantizer
parameter set (QTensorImpl.h lines 16-24, 62-63).  The quantizer type `Q` is a
parameter because this core only forwards it (spec section 6). -/
structure QTensorImpl (Q : Type) where
  base : C10TensorImpl
  quantizer_ : Q
deriving DecidableEq, Repr

/-- Modelled from the spec: `TensorImpl::copy_tensor_data` (c10/core/
TensorImpl.h, not among the source files) as documented at QTensorImpl.h lines
65-69: copy the storage pointer and the tensor metadata fields (sizes /
strides / storage_offset) from src to dest, installing the supplied version
counter and `allow_tensor_metadata_change`. -/
def C10TensorImpl.copy_tensor_data (src_impl dest_impl : C10TensorImpl)
    (version_counter : Nat) (allow_tensor_metadata_change : Bool) :
    C10TensorImpl :=
  { dest_impl with
    storage := src_impl.storage
    storage_offset := src_impl.storage_offset
    sizes := src_impl.sizes
    strides := src_impl.strides
    type_id := src_impl.type_id
    version_counter := version_counter
    allow_tensor_metadata_change := allow_tensor_metadata_change }

/-- Modelled from the spec: `TensorImpl::refresh_numel` — reestablish
`numel == product(sizes)`. -/
def C10TensorImpl.refresh_numel (t : C10TensorImpl) : C10TensorImpl :=
  { t with numel := t.sizes.prod }

/-- Modelled from the spec: `TensorImpl::refresh_contiguous` — recompute the
contiguity flag with the compute_contiguous scan. -/
def C10TensorImpl.refresh_contiguous (t : C10TensorImpl) : C10TensorImpl :=
  { t with is_contiguous :=
      if t.numel == 0 then true
      else contiguousLoop ((t.sizes.zip t.strides).reverse) 1 }

/-- QTensorImpl(Storage&&, TensorTypeId, QuantizerPtr) (QTensorImpl.h lines
18-21); the base TensorImpl starts 1-d [0]/[1], numel 0, contiguous, like the
default TensorImpl constructor. -/
def QTensorImpl.make {Q : Type} (storage : Option Storage)
    (type_id : TensorTypeId) (quantizer : Q) : QTensorImpl Q :=
  { base := { storage := storage, storage_offset := 0, sizes := [0],
              strides := [1], numel := 0, is_contiguous := true,
              type_id := type_id, version_counter := 0,
              allow_tensor_metadata_change := true }
    quantizer_ := quantizer }

/-- QTensorImpl::copy_tensor_data (QTensorImpl.h lines 71-80): the base copy
plus the quantizer carried over verbatim. -/
def QTensorImpl.copy_tensor_data {Q : Type}
    (src_q_impl dest_q_impl : QTensorImpl Q) (version_counter : Nat)
    (allow_tensor_metadata_change : Bool) : QTensorImpl Q :=
  { base := C10TensorImpl.copy_tensor_data src_q_impl.base dest_q_impl.base
      version_counter allow_tensor_metadata_change
    quantizer_ := src_q_impl.quantizer_ }

/-- QTensorImpl::shallow_copy_and_detach (QTensorImpl.h lines 34-47): build a
fresh QTensorImpl over the same storage/type/quantizer, copy the tensor data
into it with the supplied version counter and mutability flag, then refresh
numel and contiguity. -/
def QTensorImpl.shallow_copy_and_detach {Q : Type} (self : QTensorImpl Q)
    (version_counter : Nat) (allow_tensor_metadata_change : Bool) :
    QTensorImpl Q :=
  let impl := QTensorImpl.make self.base.storage self.base.type_id self.quantizer_
  let impl2 := QTensorImpl.copy_tensor_data self impl version_counter
    allow_tensor_metadata_change
  { impl2 with base := impl2.base.refresh_numel.refresh_contiguous }

/-- QTensorImpl::shallow_copy_from (QTensorImpl.h lines 52-60): copy the tensor
data from `impl` into `self`, keeping self's version counter and mutability
flag, then refresh numel and contiguity. -/
def QTensorImpl.shallow_copy_from {Q : Type} (self impl : QTensorImpl Q) :
    QTensorImpl Q :=
  let c := QTensorImpl.copy_tensor_data impl self self.base.version_counter
    self.base.allow_tensor_metadata_change
  { c with base := c.base.refresh_numel.refresh_contiguous }

/-- C9: `shallow_copy_and_detach` followed by `shallow_copy_from` with the
original as source leaves the destination with the original's sizes, strides,
storage offset and numel, and the quantizer is carried over verbatim by both
operations. -/
theorem shallow_copy_roundtrip (Q : Type) (orig : QTensorImpl Q)
    (version_counter : Nat) (allow_tensor_metadata_change : Bool)
    (hnum : orig.base.numel = orig.base.sizes.prod) :
    ((orig.shallow_copy_and_detach version_counter
        allow_tensor_metadata_change).shallow_copy_from orig).base.sizes =
      orig.base.sizes ∧
    ((orig.shallow_copy_and_detach version_counter
        allow_tensor_metadata_change).shallow_copy_from orig).base.strides =
      orig.base.strides ∧
    ((orig.shallow_copy_and_detach version_counter
        allow_tensor_metadata_change).shallow_copy_from orig).base.storage_offset =
      orig.base.storage_offset ∧
    ((orig.shallow_copy_and_detach version_counter
        allow_tensor_metadata_change).shallow_copy_from orig).base.numel =
      orig.base.numel ∧
    (orig.shallow_copy_and_detach version_counter
        allow_tensor_metadata_change).quantizer_ = orig.quantizer_ ∧
    ((orig.shallow_copy_and_detach version_counter
        allow_tensor_metadata_change).shallow_copy_from orig).quantizer_ =
      orig.quantizer_ := by
  refine ⟨rfl, rfl, rfl, ?_, rfl, rfl⟩
  show orig.base.sizes.prod = orig.base.numel
  exact hnum.symm

/-- A concrete 2x3 quantized tensor with a Nat quantizer. -/
def sampleQ : QTensorImpl Nat :=
  QTensorImpl.mk
    { storage := some { dtype := ScalarType.Byte, numel := 6 },
      storage_offset := 0, sizes := [2, 3], strides := [3, 1], numel := 6,
      is_contiguous := true, type_id := TensorTypeId.CPUTensorId,
      version_counter := 3, allow_tensor_metadata_change := true } 42

/-- Witness for C9: the round trip at the concrete quantized tensor. -/
theorem shallow_copy_roundtrip_witness :
    ((sampleQ.shallow_copy_and_detach 9 false).shallow_copy_from sampleQ).base.numel =
      sampleQ.base.numel :=
  (shallow_copy_roundtrip Nat sampleQ 9 false (by decide)).2.2.2.1
